import Mathlib

/-!
# AccessiChef measurement converter and recipe timer: a shallow embedding

This file embeds the two core utilities of the AccessiChef repository in
Lean 4 and proves (or refutes) the specified properties about them.

* `src/js/accessibility.js`, object `MeasurementConverter`: the conversion
  factor table, the unit mapping table, `convertToImperial`,
  `convertToMetric`, `isVolumeUnit` and `roundMeasurement`.  JavaScript
  numbers are embedded as exact rationals; every decimal literal of the
  source is carried over exactly.  `Math.round` is embedded as half-up
  rounding (floor of x + 1/2), which agrees with JavaScript on every
  value considered here, and `String.prototype.toLowerCase` as ASCII
  lowercasing, which agrees with JavaScript on the ASCII unit strings.

* `src/js/utils/timer.js`, object `RecipeTimer`: the mutable timer record
  is a `TimerState`, callbacks are identified by numeric tokens, interval
  schedules by numeric identifiers, and the DOM display element is a record
  of its text content and class list.  The event loop is modelled by an
  action type (`TAction`): user calls, elapsed interval ticks (which fire
  only while their schedule identifier is the active one, exactly as a
  cleared `setInterval` never fires again), and the elapse of the
  3-second grace `setTimeout`.  Each step returns the successor state and
  the observable events it emits: display renders and callback invocations.
-/

namespace AccessiChef

/-! ## Measurement converter (src/js/accessibility.js, lines 388-582) -/

/-- JavaScript `String.prototype.toLowerCase` on a single ASCII character:
uppercase letters move down by 32 code points, all else is unchanged. -/
def jsCharToLower (c : Char) : Char :=
  if 65 ≤ c.toNat ∧ c.toNat ≤ 90 then Char.ofNat (c.toNat + 32) else c

/-- JavaScript `String.prototype.toLowerCase`, restricted to the ASCII
strings that occur as unit names in this repository. -/
def jsToLower (s : String) : String := String.mk (s.data.map jsCharToLower)

/-- A measurement value, `{ amount, unit }` in the source. -/
structure Measurement where
  amount : ℚ
  unit : String
deriving DecidableEq

/-- One entry of the conversion factor table: the two per-unit scale
factors `toMetric` and `toImperial`. -/
structure ConversionFactor where
  toMetric : ℚ
  toImperial : ℚ
deriving DecidableEq

/-- The `conversionFactors` table of `MeasurementConverter`
(accessibility.js lines 392-444), with every decimal literal embedded as
an exact rational. -/
def conversionFactors : String → Option ConversionFactor
  | "ml" => some { toMetric := 1, toImperial := 33814 / 1000000 }
  | "l" => some { toMetric := 1000, toImperial := 33814 / 1000 }
  | "floz" => some { toMetric := 295735 / 10000, toImperial := 1 }
  | "cup" => some { toMetric := 236588 / 1000, toImperial := 8 }
  | "pint" => some { toMetric := 473176 / 1000, toImperial := 16 }
  | "quart" => some { toMetric := 946353 / 1000, toImperial := 32 }
  | "tbsp" => some { toMetric := 147868 / 10000, toImperial := 1 / 2 }
  | "tsp" => some { toMetric := 492892 / 100000, toImperial := 166667 / 1000000 }
  | "g" => some { toMetric := 1, toImperial := 35274 / 1000000 }
  | "kg" => some { toMetric := 1000, toImperial := 35274 / 1000 }
  | "oz" => some { toMetric := 283495 / 10000, toImperial := 1 }
  | "lb" => some { toMetric := 453592 / 1000, toImperial := 16 }
  | _ => none

/-- The `unitMappings` table (accessibility.js lines 449-465). -/
def unitMappings : String → Option String
  | "ml" => some "floz"
  | "l" => some "quart"
  | "g" => some "oz"
  | "kg" => some "lb"
  | "tbsp" => some "tbsp"
  | "tsp" => some "tsp"
  | "floz" => some "ml"
  | "cup" => some "ml"
  | "pint" => some "ml"
  | "quart" => some "l"
  | "oz" => some "g"
  | "lb" => some "kg"
  | _ => none

/-- JavaScript `Math.round`: round half up, i.e. the floor of `x + 1/2`. -/
def jsRound (x : ℚ) : ℤ := ⌊x + 1 / 2⌋

/-- `isVolumeUnit` (accessibility.js lines 562-564): membership of the
lower-cased unit in the eight volume unit names. -/
def isVolumeUnit (unit : String) : Bool :=
  ["ml", "l", "floz", "cup", "pint", "quart", "tbsp", "tsp"].contains (jsToLower unit)

/-- `roundMeasurement` (accessibility.js lines 571-582): to the nearest
whole number at or above 10, to the nearest quarter at or above 1, to the
nearest eighth below 1.  The comparisons are on the signed value, exactly
as in the source. -/
def roundMeasurement (value : ℚ) : ℚ :=
  if value ≥ 10 then
    (jsRound value : ℚ)
  else if value ≥ 1 then
    (jsRound (value * 4) : ℚ) / 4
  else
    (jsRound (value * 8) : ℚ) / 8

/-- `convertToImperial` (accessibility.js lines 473-510).  The two `getD`
defaults are never taken: every key of the factor table has a unit mapping
whose image is again a key of the factor table (in the source an absent
mapping would dereference `undefined` and throw; that path is dead).  The
volume and weight branches carry the identical arithmetic of the source:
amount times the source factor `toMetric` times the target factor
`toImperial`. -/
def convertToImperial (amount : ℚ) (unit : String) : Measurement :=
  if unit = "pinch" ∨ unit = "dash" ∨ unit = "to taste" ∨ unit = "" then
    { amount := amount, unit := unit }
  else
    let normalizedUnit := jsToLower unit
    match conversionFactors normalizedUnit with
    | none => { amount := amount, unit := unit }
    | some factor =>
      let targetUnit := (unitMappings normalizedUnit).getD ""
      let targetFactor :=
        (conversionFactors targetUnit).getD { toMetric := 0, toImperial := 0 }
      let convertedAmount :=
        if isVolumeUnit normalizedUnit then
          amount * factor.toMetric * targetFactor.toImperial
        else
          amount * factor.toMetric * targetFactor.toImperial
      { amount := roundMeasurement convertedAmount, unit := targetUnit }

/-- `convertToMetric` (accessibility.js lines 518-555); same structure as
`convertToImperial`, with the roles of the two scale factors exchanged:
amount times the source factor `toImperial` times the target factor
`toMetric`. -/
def convertToMetric (amount : ℚ) (unit : String) : Measurement :=
  if unit = "pinch" ∨ unit = "dash" ∨ unit = "to taste" ∨ unit = "" then
    { amount := amount, unit := unit }
  else
    let normalizedUnit := jsToLower unit
    match conversionFactors normalizedUnit with
    | none => { amount := amount, unit := unit }
    | some factor =>
      let targetUnit := (unitMappings normalizedUnit).getD ""
      let targetFactor :=
        (conversionFactors targetUnit).getD { toMetric := 0, toImperial := 0 }
      let convertedAmount :=
        if isVolumeUnit normalizedUnit then
          amount * factor.toImperial * targetFactor.toMetric
        else
          amount * factor.toImperial * targetFactor.toMetric
      { amount := roundMeasurement convertedAmount, unit := targetUnit }

/-! ## Recipe timer (src/js/utils/timer.js)

The observable events of a step are display renders (the strings written
to `textContent`) and callback invocations (by callback token). -/

/-- An observable event of the timer. -/
inductive TEvent where
  | render : String → TEvent
  | invoke : Nat → TEvent
deriving DecidableEq

/-- The display element handed to the timer: its text content and its
class list (`classList` in the DOM). -/
structure Display where
  text : String
  classes : List String
deriving DecidableEq

/-- The mutable fields of the `RecipeTimer` object (timer.js lines 18-37),
plus `gracePending`, which records that the 3-second `setTimeout`
scheduled by `completeTimer` has not yet elapsed. -/
structure TimerState where
  timerInterval : Option Nat
  secondsRemaining : Int
  currentTimerDisplay : Option Display
  completionCallback : Option Nat
  gracePending : Bool
deriving DecidableEq

/-- The initial field values of the `RecipeTimer` object. -/
def initialTimer : TimerState :=
  { timerInterval := none, secondsRemaining := 0, currentTimerDisplay := none,
    completionCallback := none, gracePending := false }

/-- `classList.add`: appends the class unless already present. -/
def addClass (d : Display) (c : String) : Display :=
  if d.classes.contains c then d else { d with classes := d.classes ++ [c] }

/-- `classList.remove`: drops every occurrence of the class. -/
def removeClass (d : Display) (c : String) : Display :=
  { d with classes := d.classes.filter (fun x => x ≠ c) }

/-- `n.toString().padStart(2, c)` for an integer `n`. -/
def padStart2 (s : String) : String :=
  if s.length < 2 then String.mk (List.replicate (2 - s.length) '0') ++ s else s

/-- The `MM:SS` string of `updateTimerDisplay` (timer.js lines 137-141):
`Math.floor(secondsRemaining / 60)` is flooring division and the JavaScript
remainder `%` truncates toward zero. -/
def formatTime (secondsRemaining : Int) : String :=
  padStart2 (toString (Int.fdiv secondsRemaining 60)) ++ ":" ++
    padStart2 (toString (Int.tmod secondsRemaining 60))

/-- `updateTimerDisplay` (timer.js lines 135-151): if a display is
attached, write the formatted time and toggle the low-time warning classes
at ten seconds or below. -/
def updateTimerDisplay (t : TimerState) : TimerState × List TEvent :=
  match t.currentTimerDisplay with
  | none => (t, [])
  | some d =>
    let formattedTime := formatTime t.secondsRemaining
    let d1 := { d with text := formattedTime }
    let d2 :=
      if t.secondsRemaining ≤ 10 then
        addClass (addClass d1 "text-danger") "fw-bold"
      else
        removeClass (removeClass d1 "text-danger") "fw-bold"
    ({ t with currentTimerDisplay := some d2 }, [TEvent.render formattedTime])

/-- `completeTimer` (timer.js lines 156-182): clear the interval, write
the terminal DONE text and its classes, schedule the 3-second revert, and
invoke the completion callback if one is attached.  (The completion sound
is an external side effect with no bearing on the state.) -/
def completeTimer (t : TimerState) : TimerState × List TEvent :=
  let t1 := { t with timerInterval := none }
  let p :=
    match t1.currentTimerDisplay with
    | some d =>
      let d1 := addClass (addClass (addClass { d with text := "DONE!" }
        "bg-success") "text-white") "fw-bold"
      ({ t1 with currentTimerDisplay := some d1, gracePending := true },
        [TEvent.render "DONE!"])
    | none => (t1, [])
  match p.1.completionCallback with
  | some c => (p.1, p.2 ++ [TEvent.invoke c])
  | none => (p.1, p.2)

/-- The body of the `setInterval` closure, identical in `startTimer`
(timer.js lines 66-76) and `resumeTimer` (lines 116-126): decrement,
re-render, and complete once the count is at or below zero. -/
def tickOnce (t : TimerState) : TimerState × List TEvent :=
  let t1 := { t with secondsRemaining := t.secondsRemaining - 1 }
  let u := updateTimerDisplay t1
  if u.1.secondsRemaining ≤ 0 then
    let cpl := completeTimer u.1
    (cpl.1, u.2 ++ cpl.2)
  else
    u

/-- `stopTimer` (timer.js lines 84-97).  The whole body is guarded by
`if (this.timerInterval)`: with no active interval nothing happens at
all. -/
def stopTimer (t : TimerState) : TimerState × List TEvent :=
  match t.timerInterval with
  | some _ =>
    let t1 := { t with timerInterval := none, secondsRemaining := 0 }
    match t1.currentTimerDisplay with
    | some _ => updateTimerDisplay t1
    | none => (t1, [])
  | none => (t, [])

/-- `startTimer` (timer.js lines 53-79): stop any existing timer, install
the new parameters, render once, and schedule a fresh interval (the fresh
identifier is supplied by the environment as `freshId`). -/
def startTimer (t : TimerState) (seconds : Int) (displayElement : Option Display)
    (callback : Option Nat) (freshId : Nat) : TimerState × List TEvent :=
  let s := stopTimer t
  let t2 := { s.1 with secondsRemaining := seconds, currentTimerDisplay := displayElement,
                       completionCallback := callback }
  let u := updateTimerDisplay t2
  ({ u.1 with timerInterval := some freshId }, s.2 ++ u.2)

/-- `pauseTimer` (timer.js lines 102-109): clear the interval if one is
active; `secondsRemaining` is untouched. -/
def pauseTimer (t : TimerState) : TimerState × List TEvent :=
  match t.timerInterval with
  | some _ => ({ t with timerInterval := none }, [])
  | none => (t, [])

/-- `resumeTimer` (timer.js lines 114-130): schedule a fresh interval when
none is active and time remains. -/
def resumeTimer (t : TimerState) (freshId : Nat) : TimerState × List TEvent :=
  if t.timerInterval = none ∧ t.secondsRemaining > 0 then
    ({ t with timerInterval := some freshId }, [])
  else
    (t, [])

/-- The body of the 3-second `setTimeout` closure of `completeTimer`
(timer.js lines 170-173): it reads `this.currentTimerDisplay` at fire
time, removes the DONE classes and resets the text.  (With no display
attached the source closure would throw; that state is never reached,
since the timeout is only scheduled when a display is attached.) -/
def graceElapsed (t : TimerState) : TimerState × List TEvent :=
  if t.gracePending then
    match t.currentTimerDisplay with
    | some d =>
      let d1 := removeClass (removeClass (removeClass d "bg-success") "text-white") "fw-bold"
      let d2 := { d1 with text := "00:00" }
      ({ t with currentTimerDisplay := some d2, gracePending := false },
        [TEvent.render "00:00"])
    | none => ({ t with gracePending := false }, [])
  else
    (t, [])

/-- An external trigger of the timer system: a public method call, the
elapse of an interval tick (carrying the identifier of the schedule that
fired; a cleared schedule never fires), or the elapse of the grace
timeout. -/
inductive TAction where
  | start : Int → Option Display → Option Nat → Nat → TAction
  | tick : Nat → TAction
  | stop : TAction
  | pause : TAction
  | resume : Nat → TAction
  | grace : TAction
deriving DecidableEq

/-- One step of the timer system under an external trigger. -/
def step (t : TimerState) (a : TAction) : TimerState × List TEvent :=
  match a with
  | .start s d cb f => startTimer t s d cb f
  | .tick id => if t.timerInterval = some id then tickOnce t else (t, [])
  | .stop => stopTimer t
  | .pause => pauseTimer t
  | .resume f => resumeTimer t f
  | .grace => graceElapsed t

/-- Run a sequence of triggers, concatenating the emitted events. -/
def run (t : TimerState) : List TAction → TimerState × List TEvent
  | [] => (t, [])
  | a :: rest =>
    let s1 := step t a
    let s2 := run s1.1 rest
    (s2.1, s1.2 ++ s2.2)

/-- A countdown's callback can no longer fire: either it is not the one
installed, or the timer holds it with no schedule and no time left, so no
tick will ever reach `completeTimer` again. -/
def SafeCb (c : Nat) (t : TimerState) : Prop :=
  t.completionCallback = some c → t.timerInterval = none ∧ t.secondsRemaining ≤ 0

/-- No `startTimer` call in the trigger sequence installs callback `c`. -/
def avoidsCb (c : Nat) (acts : List TAction) : Prop :=
  ∀ s d cb f, TAction.start s d cb f ∈ acts → cb ≠ some c

/-- The timer invariant: the count is non-negative, and strictly positive
whenever an interval is scheduled. -/
def TimerInv (t : TimerState) : Prop :=
  0 ≤ t.secondsRemaining ∧ (t.timerInterval ≠ none → 1 ≤ t.secondsRemaining)

/-- Every `startTimer` call in the trigger sequence has a positive
duration. -/
def startsPositive (acts : List TAction) : Prop :=
  ∀ s d cb f, TAction.start s d cb f ∈ acts → 1 ≤ s

/-- A concrete display element, blank before the timer touches it. -/
def cookingDisplay : Display := { text := "", classes := [] }

/-- The trigger sequence of the completion scenario: a 3-second countdown
with callback token 7 and schedule identifier 0, its three elapsed ticks,
and the elapse of the grace timeout. -/
def c3Scenario : List TAction :=
  [TAction.start 3 (some cookingDisplay) (some 7) 0, TAction.tick 0,
   TAction.tick 0, TAction.tick 0, TAction.grace]

/-- A 10-second countdown, two elapsed ticks, then a pause: the timer is
left in the paused state with 8 seconds remaining and no interval. -/
def pausedScenario : List TAction :=
  [TAction.start 10 (some cookingDisplay) none 0, TAction.tick 0,
   TAction.tick 0, TAction.pause]

/-! ## Evaluation helpers for the rounding function -/

theorem jsRound_eq (x : ℚ) (n : ℤ) (h1 : (n : ℚ) ≤ x + 1 / 2) (h2 : x + 1 / 2 < n + 1) :
    jsRound x = n := Int.floor_eq_iff.mpr ⟨h1, h2⟩

theorem jsRound_le (x : ℚ) : (jsRound x : ℚ) ≤ x + 1 / 2 := Int.floor_le _

theorem lt_jsRound (x : ℚ) : x - 1 / 2 < (jsRound x : ℚ) := by
  have h := Int.lt_floor_add_one (x + 1 / 2)
  unfold jsRound
  push_cast at h ⊢
  linarith

theorem roundMeasurement_whole (v : ℚ) (h : v ≥ 10) :
    roundMeasurement v = (jsRound v : ℚ) := by
  unfold roundMeasurement
  rw [if_pos h]

theorem roundMeasurement_quarter (v : ℚ) (h1 : ¬v ≥ 10) (h2 : v ≥ 1) :
    roundMeasurement v = (jsRound (v * 4) : ℚ) / 4 := by
  unfold roundMeasurement
  rw [if_neg h1, if_pos h2]

theorem roundMeasurement_eighth (v : ℚ) (h1 : ¬v ≥ 10) (h2 : ¬v ≥ 1) :
    roundMeasurement v = (jsRound (v * 8) : ℚ) / 8 := by
  unfold roundMeasurement
  rw [if_neg h1, if_neg h2]

/-! ## The converter claims -/

/-- C1: the spec states that both conversion directions pivot through the
base unit, `result = amount * sourceScaleToBase * destinationScaleFromBase`,
preserving the physical quantity, so that `convertToMetric(1, "cup")`
yields the rounding of 236.588 (that is, 237) in ml and
`convertToImperial(100, "g")` yields the rounding of 3.5274 (that is, 3.5)
in oz.  The code instead multiplies by the target unit's scale-TO-base
factor of the table: it returns 8 ml for 1 cup and 100 oz for 100 g, so
the output does not denote the same physical quantity as the input. -/
theorem C1_conversion_not_base_pivot :
    convertToMetric 1 "cup" = { amount := 8, unit := "ml" } ∧
    roundMeasurement (236588 / 1000) = 237 ∧ (8 : ℚ) ≠ 237 ∧
    convertToImperial 100 "g" = { amount := 100, unit := "oz" } ∧
    roundMeasurement (35274 / 10000) = 7 / 2 ∧ (100 : ℚ) ≠ 7 / 2 := by
  refine ⟨?_, ?_, by norm_num, ?_, ?_, by norm_num⟩
  · have h : roundMeasurement (1 * 8 * 1) = 8 := by
      rw [roundMeasurement_quarter _ (by norm_num) (by norm_num),
        jsRound_eq _ 32 (by norm_num) (by norm_num)]
      norm_num
    show Measurement.mk (roundMeasurement (1 * 8 * 1)) "ml" = _
    rw [h]
  · rw [roundMeasurement_whole _ (by norm_num),
      jsRound_eq _ 237 (by norm_num) (by norm_num)]
    norm_num
  · have h : roundMeasurement (100 * 1 * 1) = 100 := by
      rw [roundMeasurement_whole _ (by norm_num),
        jsRound_eq _ 100 (by norm_num) (by norm_num)]
      norm_num
    show Measurement.mk (roundMeasurement (100 * 1 * 1)) "oz" = _
    rw [h]
  · rw [roundMeasurement_quarter _ (by norm_num) (by norm_num),
      jsRound_eq _ 14 (by norm_num) (by norm_num)]
    norm_num

/-- C2: the spec claims the metric-to-imperial-to-metric round trip stays
within the rounding tolerance for every supported metric unit, e.g. 100 g
to oz and back stays within 1 g of 100.  The 100 g instance does hold (both
legs are numeric identities there), but the claim fails for the liter: the
code turns 1 l into 32000 "quart", and converting that back yields
1024000000 "l", which is not within any rounding tolerance of 1. -/
theorem C2_round_trip_fails_for_liters :
    convertToImperial 1 "l" = { amount := 32000, unit := "quart" } ∧
    convertToMetric 32000 "quart" = { amount := 1024000000, unit := "l" } ∧
    ¬|(1024000000 : ℚ) - 1| ≤ 1 ∧
    convertToImperial 100 "g" = { amount := 100, unit := "oz" } ∧
    convertToMetric 100 "oz" = { amount := 100, unit := "g" } ∧
    |(100 : ℚ) - 100| ≤ 1 := by
  refine ⟨?_, ?_, by rw [abs_le]; norm_num, ?_, ?_, by norm_num⟩
  · have h : roundMeasurement (1 * 1000 * 32) = 32000 := by
      rw [roundMeasurement_whole _ (by norm_num),
        jsRound_eq _ 32000 (by norm_num) (by norm_num)]
      norm_num
    show Measurement.mk (roundMeasurement (1 * 1000 * 32)) "quart" = _
    rw [h]
  · have h : roundMeasurement (32000 * 32 * 1000) = 1024000000 := by
      rw [roundMeasurement_whole _ (by norm_num),
        jsRound_eq _ 1024000000 (by norm_num) (by norm_num)]
      norm_num
    show Measurement.mk (roundMeasurement (32000 * 32 * 1000)) "l" = _
    rw [h]
  · have h : roundMeasurement (100 * 1 * 1) = 100 := by
      rw [roundMeasurement_whole _ (by norm_num),
        jsRound_eq _ 100 (by norm_num) (by norm_num)]
      norm_num
    show Measurement.mk (roundMeasurement (100 * 1 * 1)) "oz" = _
    rw [h]
  · have h : roundMeasurement (100 * 1 * 1) = 100 := by
      rw [roundMeasurement_whole _ (by norm_num),
        jsRound_eq _ 100 (by norm_num) (by norm_num)]
      norm_num
    show Measurement.mk (roundMeasurement (100 * 1 * 1)) "g" = _
    rw [h]

/-- C7 counterexample: the claim selects the rounding tier by the absolute
value, so a value computing to -23.7 would round to the nearest integer,
which is -24 (and indeed the integer-tier rounding of the code itself,
`Math.round`, gives -24 there).  The code compares the signed value, falls
into the eighth tier, and returns -23.75. -/
theorem C7_abs_tier_counterexample :
    roundMeasurement (-237 / 10) = -95 / 4 ∧
    (jsRound (-237 / 10) : ℚ) = -24 ∧
    (-95 / 4 : ℚ) ≠ -24 := by
  refine ⟨?_, ?_, by norm_num⟩
  · rw [roundMeasurement_eighth _ (by norm_num) (by norm_num),
      jsRound_eq _ (-190) (by norm_num) (by norm_num)]
    norm_num
  · rw [jsRound_eq _ (-24) (by norm_num) (by norm_num)]
    norm_num

/-- C7 (amended): the rounding tiers are selected by the signed value, not
the absolute value: at or above 10 the result is the nearest integer
(within 1/2), between 1 and 10 the nearest quarter (within 1/8), and below
1 — including every negative value — the nearest eighth (within 1/16).
The claim's examples hold: 23.7 rounds to 24, 3.1 to 3.0, 0.6 to 0.625. -/
theorem C7_rounding_tiers (v : ℚ) :
    (10 ≤ v → ∃ n : ℤ, roundMeasurement v = (n : ℚ) ∧ |(n : ℚ) - v| ≤ 1 / 2) ∧
    (1 ≤ v → v < 10 → ∃ n : ℤ, roundMeasurement v = (n : ℚ) / 4 ∧ |(n : ℚ) / 4 - v| ≤ 1 / 8) ∧
    (v < 1 → ∃ n : ℤ, roundMeasurement v = (n : ℚ) / 8 ∧ |(n : ℚ) / 8 - v| ≤ 1 / 16) ∧
    roundMeasurement (237 / 10) = 24 ∧
    roundMeasurement (31 / 10) = 3 ∧
    roundMeasurement (6 / 10) = 5 / 8 := by
  refine ⟨?_, ?_, ?_, ?_, ?_, ?_⟩
  · intro h
    refine ⟨jsRound v, roundMeasurement_whole v h, ?_⟩
    have h1 := jsRound_le v
    have h2 := lt_jsRound v
    rw [abs_le]
    constructor <;> linarith
  · intro h1 h2
    refine ⟨jsRound (v * 4), roundMeasurement_quarter v (by linarith) h1, ?_⟩
    have h3 := jsRound_le (v * 4)
    have h4 := lt_jsRound (v * 4)
    rw [abs_le]
    constructor <;> linarith
  · intro h
    refine ⟨jsRound (v * 8), roundMeasurement_eighth v (by linarith) (by linarith), ?_⟩
    have h3 := jsRound_le (v * 8)
    have h4 := lt_jsRound (v * 8)
    rw [abs_le]
    constructor <;> linarith
  · rw [roundMeasurement_whole _ (by norm_num),
      jsRound_eq _ 24 (by norm_num) (by norm_num)]
    norm_num
  · rw [roundMeasurement_quarter _ (by norm_num) (by norm_num),
      jsRound_eq _ 12 (by norm_num) (by norm_num)]
    norm_num
  · rw [roundMeasurement_eighth _ (by norm_num) (by norm_num),
      jsRound_eq _ 5 (by norm_num) (by norm_num)]
    norm_num

/-- Witness for C7: the amended theorem applied at 23.7, whose tier
hypothesis holds. -/
theorem C7_rounding_tiers_witness :
    ∃ n : ℤ, roundMeasurement (237 / 10) = (n : ℚ) ∧ |(n : ℚ) - 237 / 10| ≤ 1 / 2 :=
  (C7_rounding_tiers (237 / 10)).1 (by norm_num)

/-- C9 counterexample: the claim says cup, pint and quart all fold to ml
on the metric side, but the unit mapping sends quart to l, so
`convertToMetric(1, "quart")` carries unit "l", not "ml". -/
theorem C9_quart_counterexample :
    (convertToMetric 1 "quart").unit = "l" ∧ "l" ≠ "ml" := by
  exact ⟨rfl, by decide⟩

/-- C9 (amended): cup and pint fold to ml on the metric side for every
amount; quart instead maps to l. -/
theorem C9_metric_folding (a : ℚ) :
    (convertToMetric a "cup").unit = "ml" ∧
    (convertToMetric a "pint").unit = "ml" ∧
    (convertToMetric a "quart").unit = "l" :=
  ⟨rfl, rfl, rfl⟩

/-- C10: the target unit comes from the single direction-agnostic mapping
table, so the imperial direction applied to cup or pint — units that are
already imperial — produces a result labelled with the metric unit ml; in
particular `convertToImperial(1, "cup")` is 8 "ml". -/
theorem C10_imperial_direction_yields_ml (a : ℚ) :
    (convertToImperial a "cup").unit = "ml" ∧
    (convertToImperial a "pint").unit = "ml" ∧
    convertToImperial 1 "cup" = { amount := 8, unit := "ml" } := by
  refine ⟨rfl, rfl, ?_⟩
  have h : roundMeasurement (1 * (236588 / 1000) * (33814 / 1000000)) = 8 := by
    rw [roundMeasurement_quarter _ (by norm_num) (by norm_num),
      jsRound_eq _ 32 (by norm_num) (by norm_num)]
    norm_num
  show Measurement.mk (roundMeasurement (1 * (236588 / 1000) * (33814 / 1000000))) "ml" = _
  rw [h]

/-! ## Structural lemmas about the timer operations -/

theorem addClass_text (d : Display) (c : String) : (addClass d c).text = d.text := by
  unfold addClass
  split <;> rfl

theorem updateTimerDisplay_spec (t : TimerState) :
    (updateTimerDisplay t).1.timerInterval = t.timerInterval ∧
    (updateTimerDisplay t).1.secondsRemaining = t.secondsRemaining ∧
    (updateTimerDisplay t).1.completionCallback = t.completionCallback ∧
    (updateTimerDisplay t).1.gracePending = t.gracePending ∧
    ∀ c, TEvent.invoke c ∉ (updateTimerDisplay t).2 := by
  rcases t with ⟨i, r, cd, cb, g⟩
  cases cd <;>
    exact ⟨rfl, rfl, rfl, rfl, by intro c h; simp [updateTimerDisplay] at h⟩

theorem completeTimer_spec (t : TimerState) :
    (completeTimer t).1.timerInterval = none ∧
    (completeTimer t).1.secondsRemaining = t.secondsRemaining ∧
    (completeTimer t).1.completionCallback = t.completionCallback ∧
    ∀ c, TEvent.invoke c ∈ (completeTimer t).2 → t.completionCallback = some c := by
  rcases t with ⟨i, r, cd, cb, g⟩
  cases cd <;> cases cb <;>
    refine ⟨rfl, rfl, rfl, ?_⟩ <;> intro c h <;> simp [completeTimer] at h <;> simp [h]

theorem tickOnce_spec (t : TimerState) :
    (tickOnce t).1.secondsRemaining = t.secondsRemaining - 1 ∧
    (tickOnce t).1.completionCallback = t.completionCallback ∧
    (t.secondsRemaining - 1 ≤ 0 → (tickOnce t).1.timerInterval = none) ∧
    (¬t.secondsRemaining - 1 ≤ 0 → (tickOnce t).1.timerInterval = t.timerInterval) ∧
    ∀ c, TEvent.invoke c ∈ (tickOnce t).2 → t.completionCallback = some c := by
  rcases t with ⟨i, r, cd, cb, g⟩
  by_cases h : r - 1 ≤ 0 <;>
    cases cd <;> cases cb <;>
      refine ⟨?_, ?_, ?_, ?_, ?_⟩ <;>
        simp [tickOnce, updateTimerDisplay, completeTimer, h]

theorem stopTimer_spec (t : TimerState) :
    (stopTimer t).1.timerInterval = none ∧
    (stopTimer t).1.completionCallback = t.completionCallback ∧
    (t.timerInterval ≠ none → (stopTimer t).1.secondsRemaining = 0) ∧
    (∀ c, TEvent.invoke c ∉ (stopTimer t).2) ∧
    (t.timerInterval = none → stopTimer t = (t, [])) := by
  rcases t with ⟨i, r, cd, cb, g⟩
  cases i <;> cases cd <;>
    refine ⟨?_, ?_, ?_, ?_, ?_⟩ <;>
      simp [stopTimer, updateTimerDisplay]

theorem startTimer_spec (t : TimerState) (s : Int) (d : Option Display)
    (cb : Option Nat) (f : Nat) :
    (startTimer t s d cb f).1.timerInterval = some f ∧
    (startTimer t s d cb f).1.secondsRemaining = s ∧
    (startTimer t s d cb f).1.completionCallback = cb ∧
    ∀ c, TEvent.invoke c ∉ (startTimer t s d cb f).2 := by
  rcases t with ⟨i, r, cd, cb0, g⟩
  cases i <;> cases cd <;> cases d <;>
    refine ⟨rfl, rfl, rfl, ?_⟩ <;> intro c hc <;>
      simp [startTimer, stopTimer, updateTimerDisplay] at hc

theorem pauseTimer_spec (t : TimerState) :
    (pauseTimer t).1.timerInterval = none ∧
    (pauseTimer t).1.secondsRemaining = t.secondsRemaining ∧
    (pauseTimer t).1.completionCallback = t.completionCallback ∧
    (pauseTimer t).2 = [] := by
  rcases t with ⟨i, r, cd, cb, g⟩
  cases i <;> exact ⟨rfl, rfl, rfl, rfl⟩

theorem resumeTimer_spec (t : TimerState) (f : Nat) :
    (resumeTimer t f).1.secondsRemaining = t.secondsRemaining ∧
    (resumeTimer t f).1.completionCallback = t.completionCallback ∧
    (resumeTimer t f).2 = [] ∧
    ((resumeTimer t f).1.timerInterval = t.timerInterval ∨
      ((resumeTimer t f).1.timerInterval = some f ∧ 0 < t.secondsRemaining)) := by
  unfold resumeTimer
  by_cases h : t.timerInterval = none ∧ t.secondsRemaining > 0
  · rw [if_pos h]
    exact ⟨rfl, rfl, rfl, Or.inr ⟨rfl, h.2⟩⟩
  · rw [if_neg h]
    exact ⟨rfl, rfl, rfl, Or.inl rfl⟩

theorem graceElapsed_spec (t : TimerState) :
    (graceElapsed t).1.timerInterval = t.timerInterval ∧
    (graceElapsed t).1.secondsRemaining = t.secondsRemaining ∧
    (graceElapsed t).1.completionCallback = t.completionCallback ∧
    ∀ c, TEvent.invoke c ∉ (graceElapsed t).2 := by
  rcases t with ⟨i, r, cd, cb, g⟩
  cases g <;> cases cd <;>
    refine ⟨rfl, rfl, rfl, ?_⟩ <;> intro c h <;> simp [graceElapsed] at h

/-! ## Safety of discarded callbacks and the sign invariant -/

theorem step_safe (c : Nat) (t : TimerState) (a : TAction)
    (hsafe : SafeCb c t)
    (hav : ∀ s d cb f, a = TAction.start s d cb f → cb ≠ some c) :
    SafeCb c (step t a).1 ∧ TEvent.invoke c ∉ (step t a).2 := by
  cases a with
  | start s d cb f =>
    have hne : cb ≠ some c := hav s d cb f rfl
    have h := startTimer_spec t s d cb f
    refine ⟨fun hc => ?_, h.2.2.2 c⟩
    rw [show (step t (TAction.start s d cb f)).1 = (startTimer t s d cb f).1 from rfl,
      h.2.2.1] at hc
    exact absurd hc hne
  | tick id =>
    simp only [step]
    by_cases hi : t.timerInterval = some id
    · rw [if_pos hi]
      have ht := tickOnce_spec t
      have hne : t.completionCallback ≠ some c := by
        intro hcb
        have h2 := (hsafe hcb).1
        rw [h2] at hi
        exact Option.noConfusion hi
      refine ⟨fun hcb => ?_, fun hc => hne (ht.2.2.2.2 c hc)⟩
      rw [ht.2.1] at hcb
      exact absurd hcb hne
    · rw [if_neg hi]
      exact ⟨hsafe, List.not_mem_nil _⟩
  | stop =>
    simp only [step]
    have h := stopTimer_spec t
    refine ⟨fun hcb => ⟨h.1, ?_⟩, fun hc => h.2.2.2.1 c hc⟩
    rw [h.2.1] at hcb
    by_cases hi : t.timerInterval = none
    · rw [h.2.2.2.2 hi]
      exact (hsafe hcb).2
    · rw [h.2.2.1 hi]
  | pause =>
    simp only [step]
    have h := pauseTimer_spec t
    refine ⟨fun hcb => ⟨h.1, ?_⟩, ?_⟩
    · rw [h.2.2.1] at hcb
      rw [h.2.1]
      exact (hsafe hcb).2
    · rw [h.2.2.2]
      exact List.not_mem_nil _
  | resume f =>
    simp only [step]
    have h := resumeTimer_spec t f
    refine ⟨fun hcb => ?_, ?_⟩
    · rw [h.2.1] at hcb
      have h2 := hsafe hcb
      rcases h.2.2.2 with hint | ⟨_, hpos⟩
      · rw [hint, h.1]
        exact h2
      · exact absurd h2.2 (not_le.mpr hpos)
    · rw [h.2.2.1]
      exact List.not_mem_nil _
  | grace =>
    simp only [step]
    have h := graceElapsed_spec t
    refine ⟨fun hcb => ?_, fun hc => h.2.2.2 c hc⟩
    rw [h.2.2.1] at hcb
    have h2 := hsafe hcb
    refine ⟨h.1.trans h2.1, ?_⟩
    rw [h.2.1]
    exact h2.2

theorem run_safe (c : Nat) (t : TimerState) (acts : List TAction)
    (hsafe : SafeCb c t) (hav : avoidsCb c acts) :
    SafeCb c (run t acts).1 ∧ TEvent.invoke c ∉ (run t acts).2 := by
  induction acts generalizing t with
  | nil => exact ⟨hsafe, List.not_mem_nil _⟩
  | cons a rest ih =>
    have h1 := step_safe c t a hsafe (fun s d cb f hf =>
      hav s d cb f (by rw [← hf]; exact List.mem_cons_self a rest))
    have h2 := ih (step t a).1 h1.1 (fun s d cb f hm =>
      hav s d cb f (List.mem_cons_of_mem a hm))
    refine ⟨h2.1, ?_⟩
    show TEvent.invoke c ∉ (step t a).2 ++ (run (step t a).1 rest).2
    intro hm
    rcases List.mem_append.mp hm with hm | hm
    · exact h1.2 hm
    · exact h2.2 hm

theorem step_inv (t : TimerState) (a : TAction) (hinv : TimerInv t)
    (hpos : ∀ s d cb f, a = TAction.start s d cb f → 1 ≤ s) :
    TimerInv (step t a).1 := by
  obtain ⟨h0, h1⟩ := hinv
  cases a with
  | start s d cb f =>
    have hs := hpos s d cb f rfl
    have h := startTimer_spec t s d cb f
    exact ⟨by rw [show (step t (TAction.start s d cb f)).1 =
        (startTimer t s d cb f).1 from rfl, h.2.1]; linarith,
      fun _ => by rw [show (step t (TAction.start s d cb f)).1 =
        (startTimer t s d cb f).1 from rfl, h.2.1]; exact hs⟩
  | tick id =>
    simp only [step]
    by_cases hi : t.timerInterval = some id
    · rw [if_pos hi]
      have ht := tickOnce_spec t
      have hr1 : 1 ≤ t.secondsRemaining := h1 (by rw [hi]; exact Option.noConfusion)
      constructor
      · rw [ht.1]
        linarith
      · intro hne
        by_cases hz : t.secondsRemaining - 1 ≤ 0
        · rw [ht.2.2.1 hz] at hne
          exact absurd rfl hne
        · rw [ht.1]
          linarith [not_le.mp hz]
    · rw [if_neg hi]
      exact ⟨h0, h1⟩
  | stop =>
    simp only [step]
    have h := stopTimer_spec t
    refine ⟨?_, fun hne => absurd h.1 hne⟩
    by_cases hi : t.timerInterval = none
    · rw [h.2.2.2.2 hi]
      exact h0
    · rw [h.2.2.1 hi]
  | pause =>
    simp only [step]
    have h := pauseTimer_spec t
    exact ⟨by rw [h.2.1]; exact h0, fun hne => absurd h.1 hne⟩
  | resume f =>
    simp only [step]
    have h := resumeTimer_spec t f
    refine ⟨by rw [h.1]; exact h0, fun hne => ?_⟩
    rw [h.1]
    rcases h.2.2.2 with h2 | ⟨_, hp⟩
    · rw [h2] at hne
      exact h1 hne
    · omega
  | grace =>
    simp only [step]
    have h := graceElapsed_spec t
    refine ⟨by rw [h.2.1]; exact h0, fun hne => ?_⟩
    rw [h.1] at hne
    rw [h.2.1]
    exact h1 hne

theorem run_inv (t : TimerState) (acts : List TAction) (hinv : TimerInv t)
    (hpos : startsPositive acts) : TimerInv (run t acts).1 := by
  induction acts generalizing t with
  | nil => exact hinv
  | cons a rest ih =>
    have h1 := step_inv t a hinv (fun s d cb f hf =>
      hpos s d cb f (by rw [← hf]; exact List.mem_cons_self a rest))
    exact ih (step t a).1 h1 (fun s d cb f hm =>
      hpos s d cb f (List.mem_cons_of_mem a hm))

/-! ## The timer claims -/

/-- C3: after `startTimer(3, display, cb)` the three elapsed ticks render
00:02, 00:01 and 00:00; on the tick that reaches zero the interval is
cancelled, the terminal DONE indication is rendered and the callback is
invoked exactly once; after the grace period the display reverts to the
zero rendering 00:00; and the callback of this countdown never fires again
under any continuation that does not reinstall it. -/
theorem C3_completion_scenario :
    (run initialTimer c3Scenario).2 =
      [TEvent.render "00:03", TEvent.render "00:02", TEvent.render "00:01",
       TEvent.render "00:00", TEvent.render "DONE!", TEvent.invoke 7,
       TEvent.render "00:00"] ∧
    (run initialTimer (c3Scenario.take 4)).1.timerInterval = none ∧
    ((run initialTimer c3Scenario).2.filter (fun e => e = TEvent.invoke 7)).length = 1 ∧
    (run initialTimer c3Scenario).1.currentTimerDisplay =
      some { text := "00:00", classes := ["text-danger"] } ∧
    ∀ future, avoidsCb 7 future →
      TEvent.invoke 7 ∉ (run (run initialTimer c3Scenario).1 future).2 := by
  refine ⟨by decide, by decide, by decide, by decide, ?_⟩
  intro future hav
  have hsafe : SafeCb 7 (run initialTimer c3Scenario).1 := by
    intro _
    exact ⟨by decide, by decide⟩
  exact (run_safe 7 _ future hsafe hav).2

/-- Witness for C3: under the continuation of a stray tick and a resume
attempt, the completed countdown's callback does not fire. -/
theorem C3_completion_scenario_witness :
    TEvent.invoke 7 ∉
      (run (run initialTimer c3Scenario).1 [TAction.tick 0, TAction.resume 1]).2 :=
  C3_completion_scenario.2.2.2.2 [TAction.tick 0, TAction.resume 1]
    (by intro s d cb f h; simp at h)

/-- C4 counterexample: the claim says `stopTimer` zeroes `secondsRemaining`
from any state, including Paused; but in the paused state (no interval)
the whole body of `stopTimer` is skipped: it is a no-op and the count stays
at 8. -/
theorem C4_stop_paused_counterexample :
    stopTimer (run initialTimer pausedScenario).1 =
      ((run initialTimer pausedScenario).1, []) ∧
    (run initialTimer pausedScenario).1.secondsRemaining = 8 ∧
    (8 : Int) ≠ 0 := by
  exact ⟨by decide, by decide, by decide⟩

/-- C4 (amended): `stopTimer` never invokes the completion callback, and
when a tick schedule is active it cancels it, zeroes `secondsRemaining`
and returns the timer to the idle state; but when no tick schedule is
active (Idle, Paused, or the completed grace period) it is a silent no-op
and in particular does not zero `secondsRemaining`. -/
theorem C4_stop_behavior (t : TimerState) :
    (∀ c, TEvent.invoke c ∉ (stopTimer t).2) ∧
    (t.timerInterval ≠ none →
      (stopTimer t).1.timerInterval = none ∧ (stopTimer t).1.secondsRemaining = 0 ∧
      (t.currentTimerDisplay ≠ none →
        (stopTimer t).2 = [TEvent.render "00:00"] ∧
        Option.map Display.text (stopTimer t).1.currentTimerDisplay = some "00:00")) ∧
    (t.timerInterval = none → stopTimer t = (t, [])) := by
  rcases t with ⟨i, r, cd, cb, g⟩
  cases i with
  | none =>
    refine ⟨?_, fun h => absurd rfl h, fun _ => rfl⟩
    intro c hc
    simp [stopTimer] at hc
  | some j =>
    cases cd with
    | none =>
      refine ⟨?_, fun _ => ⟨rfl, rfl, fun h => absurd rfl h⟩,
        fun h => Option.noConfusion h⟩
      intro c hc
      simp [stopTimer] at hc
    | some d =>
      refine ⟨?_, fun _ => ⟨rfl, rfl, fun _ => ⟨rfl, ?_⟩⟩,
        fun h => Option.noConfusion h⟩
      · intro c hc
        simp [stopTimer, updateTimerDisplay] at hc
      · simp [stopTimer, updateTimerDisplay, addClass_text]
        rfl

/-- Witness for C4: stopping a freshly started 10-second countdown cancels
its schedule, zeroes the count, and re-renders the attached display to the
idle 00:00 rendering. -/
theorem C4_stop_behavior_witness :
    (stopTimer (run initialTimer
        [TAction.start 10 (some cookingDisplay) none 0]).1).1.timerInterval = none ∧
    (stopTimer (run initialTimer
        [TAction.start 10 (some cookingDisplay) none 0]).1).1.secondsRemaining = 0 ∧
    (stopTimer (run initialTimer
        [TAction.start 10 (some cookingDisplay) none 0]).1).2 =
      [TEvent.render "00:00"] ∧
    Option.map Display.text (stopTimer (run initialTimer
        [TAction.start 10 (some cookingDisplay) none 0]).1).1.currentTimerDisplay =
      some "00:00" := by
  have h := (C4_stop_behavior
    (run initialTimer [TAction.start 10 (some cookingDisplay) none 0]).1).2.1 (by decide)
  exact ⟨h.1, h.2.1, (h.2.2 (by decide)).1, (h.2.2 (by decide)).2⟩

/-- C5: calling `startTimer` while a countdown is running emits no callback
invocation, begins the new countdown from its own duration under its fresh
schedule, leaves the prior schedule cancelled (a tick of the old
identifier is a no-op), and the prior countdown's callback never fires
under any continuation that does not reinstall it. -/
theorem C5_start_replaces_running (t : TimerState) (c1 i : Nat) (s2 : Int)
    (d2 : Option Display) (cb2 : Option Nat) (f2 : Nat)
    (hrun : t.timerInterval = some i)
    (hcb : t.completionCallback = some c1)
    (hne : cb2 ≠ some c1) (hid : i ≠ f2) :
    (∀ c, TEvent.invoke c ∉ (startTimer t s2 d2 cb2 f2).2) ∧
    (startTimer t s2 d2 cb2 f2).1.secondsRemaining = s2 ∧
    (startTimer t s2 d2 cb2 f2).1.timerInterval = some f2 ∧
    step (startTimer t s2 d2 cb2 f2).1 (TAction.tick i) =
      ((startTimer t s2 d2 cb2 f2).1, []) ∧
    ∀ future, avoidsCb c1 future →
      TEvent.invoke c1 ∉ (run (startTimer t s2 d2 cb2 f2).1 future).2 := by
  have h := startTimer_spec t s2 d2 cb2 f2
  refine ⟨h.2.2.2, h.2.1, h.1, ?_, ?_⟩
  · have hx : (startTimer t s2 d2 cb2 f2).1.timerInterval ≠ some i := by
      rw [h.1]
      intro heq
      exact hid (Option.some.inj heq).symm
    simp only [step]
    rw [if_neg hx]
  · intro future hav
    have hsafe : SafeCb c1 (startTimer t s2 d2 cb2 f2).1 := by
      intro hc
      rw [h.2.2.1] at hc
      exact absurd hc hne
    exact (run_safe c1 _ future hsafe hav).2

/-- Witness for C5: replacing a running 5-second countdown (callback 3,
schedule 0) by a 7-second one (callback 4, schedule 1) starts the new
countdown at 7 seconds. -/
theorem C5_start_replaces_running_witness :
    (startTimer (run initialTimer
        [TAction.start 5 (some cookingDisplay) (some 3) 0]).1
      7 none (some 4) 1).1.secondsRemaining = 7 :=
  (C5_start_replaces_running _ 3 0 7 none (some 4) 1 (by decide) (by decide)
    (by decide) (by decide)).2.1

/-- C6 counterexample: the claim includes `startTimer` with
`totalSeconds ≤ 0` and asserts `secondsRemaining ≥ 0` in every reachable
state; but after `startTimer(0, ...)` the first elapsed tick decrements the
count to -1, and `completeTimer` never resets it. -/
theorem C6_negative_counterexample :
    (run initialTimer [TAction.start 0 none none 0, TAction.tick 0]).1.secondsRemaining
      = -1 ∧
    ¬0 ≤ (run initialTimer
      [TAction.start 0 none none 0, TAction.tick 0]).1.secondsRemaining := by
  exact ⟨by decide, by decide⟩

/-- C6 (amended): along every trigger sequence in which each `startTimer`
call has a positive duration, `secondsRemaining` stays non-negative (the
unrestricted claim fails: a start at 0 or below drives the count
negative). -/
theorem C6_remaining_nonneg (acts : List TAction) (hpos : startsPositive acts) :
    0 ≤ (run initialTimer acts).1.secondsRemaining :=
  (run_inv initialTimer acts ⟨le_refl 0, fun h => absurd rfl h⟩ hpos).1

/-- Witness for C6: a single 5-second start leaves a non-negative count. -/
theorem C6_remaining_nonneg_witness :
    0 ≤ (run initialTimer [TAction.start 5 none none 0]).1.secondsRemaining :=
  C6_remaining_nonneg _ (by
    intro s d cb f h
    rw [List.mem_singleton] at h
    injection h with h1 h2 h3 h4
    rw [h1]
    norm_num)

end AccessiChef
